import Mathlib

/-!
Verification of the `MapScreen` component of `wctsystem-resident`
(src/src/screens/MapScreen.tsx), a React Native screen that shows nearby
waste bins on a map and collects issue reports.

The screen's React state hooks are embedded as fields of a `ScreenState`
structure.  Each event handler (the mount effect, `refreshBins`,
`pickImages`, `submitReport`) is embedded as a function producing a list of
primitive `UIAction`s — the state-setter calls, external-service calls,
alerts and log statements it performs, in program order — together with an
`applyTrace` function folding the state-mutating actions over a state.
External collaborators (location permission, current position, the
`getBinsNearby` API, the image picker) are supplied through an `Env`
record whose fields are `Except`/`Option` values standing for the awaited
results (an `Except.error` models a thrown promise rejection, picker
`none` models cancellation).
-/

/-- Coordinates as stored in the `location` state hook:
`{ latitude, longitude }`.  TS `number`s are modelled as rationals. -/
structure Coords where
  latitude : ℚ
  longitude : ℚ
deriving DecidableEq, Repr

/-- The `location` field of a `Bin`: `{ type, coordinates: [number, number] }`.
`coordinates.1` is index 0 (longitude), `coordinates.2` is index 1
(latitude), matching the GeoJSON-style array in the source. -/
structure BinLocation where
  type : String
  coordinates : ℚ × ℚ
deriving DecidableEq, Repr

/-- The `Bin` interface of MapScreen.tsx: `_id`, `location`, `fillLevel`. -/
structure Bin where
  _id : String
  location : BinLocation
  fillLevel : ℚ
deriving DecidableEq, Repr

/-- The React state hooks of `MapScreen`, one field per `useState`. -/
structure ScreenState where
  location : Option Coords
  bins : List Bin
  selectedBin : Option Bin
  loading : Bool
  reportVisible : Bool
  reportText : String
  images : List String
deriving DecidableEq, Repr

/-- The initial values passed to the `useState` hooks on mount. -/
def initialState : ScreenState :=
  { location := none
    bins := []
    selectedBin := none
    loading := true
    reportVisible := false
    reportText := ""
    images := [] }

/-- A primitive step performed by an event handler: a state-setter call,
an external-service call, an alert, or a console log. -/
inductive UIAction where
  | setLocation : Option Coords → UIAction
  | setBins : List Bin → UIAction
  | setSelectedBin : Option Bin → UIAction
  | setLoading : Bool → UIAction
  | setReportVisible : Bool → UIAction
  | setReportText : String → UIAction
  | setImages : List String → UIAction
  | requestPermissionCall : UIAction
  | getPositionCall : UIAction
  | fetchCall : ℚ → ℚ → ℚ → UIAction
  | pickerCall : UIAction
  | alert : String → UIAction
  | logError : String → UIAction
  | logReport : String → List String → UIAction
deriving DecidableEq, Repr

/-- Effect of one action on the screen state; non-setter actions
(calls, alerts, logs) leave the state unchanged. -/
def applyAction (s : ScreenState) : UIAction → ScreenState
  | UIAction.setLocation l => { s with location := l }
  | UIAction.setBins bs => { s with bins := bs }
  | UIAction.setSelectedBin b => { s with selectedBin := b }
  | UIAction.setLoading b => { s with loading := b }
  | UIAction.setReportVisible b => { s with reportVisible := b }
  | UIAction.setReportText t => { s with reportText := t }
  | UIAction.setImages is => { s with images := is }
  | _ => s

/-- Fold a trace of actions over a state, in order. -/
def applyTrace (s : ScreenState) (as : List UIAction) : ScreenState :=
  as.foldl applyAction s

/-- Results of the awaited external calls: permission status string,
current position, `getBinsNearby` result, image-picker result
(`none` = cancelled).  `Except.error` models a thrown rejection. -/
structure Env where
  permission : Except Unit String
  position : Except Unit Coords
  fetch : Except Unit (List Bin)
  picker : Option (List String)

/-- `getFillLevelColor` from MapScreen.tsx. -/
def getFillLevelColor (fillLevel : ℚ) : String :=
  if fillLevel ≥ 90 then "#EF4444"
  else if fillLevel ≥ 70 then "#F59E0B"
  else if fillLevel ≥ 50 then "#FBBF24"
  else "#10B981"

/-- Trace of the mount `useEffect` async body: `setLoading(true)`, then
request permission (denied ⇒ alert + `setLoading(false)` + return, with
the `finally` still running `setLoading(false)`), else get the position,
set `location`, call `getBinsNearby(lat, lon, 500)` and set `bins`; any
thrown step is caught (log + alert) and `finally` clears loading. -/
def initialLoadTrace (env : Env) : List UIAction :=
  UIAction.setLoading true ::
  UIAction.requestPermissionCall ::
  match env.permission with
  | Except.error _ =>
      [UIAction.logError "Error loading map data:",
       UIAction.alert "Failed to load map data. Please try again.",
       UIAction.setLoading false]
  | Except.ok status =>
      if status ≠ "granted" then
        [UIAction.alert "Permission to access location was denied",
         UIAction.setLoading false,
         UIAction.setLoading false]
      else
        UIAction.getPositionCall ::
        match env.position with
        | Except.error _ =>
            [UIAction.logError "Error loading map data:",
             UIAction.alert "Failed to load map data. Please try again.",
             UIAction.setLoading false]
        | Except.ok pos =>
            UIAction.setLocation (some pos) ::
            UIAction.fetchCall pos.latitude pos.longitude 500 ::
            match env.fetch with
            | Except.error _ =>
                [UIAction.logError "Error loading map data:",
                 UIAction.alert "Failed to load map data. Please try again.",
                 UIAction.setLoading false]
            | Except.ok bs =>
                [UIAction.setBins bs, UIAction.setLoading false]

/-- Run the mount effect from a state. -/
def initialLoad (s : ScreenState) (env : Env) : ScreenState :=
  applyTrace s (initialLoadTrace env)

/-- Trace of `refreshBins`: early return if `location` is null, else
`setLoading(true)`, `getBinsNearby(lat, lon, 500)`, `setBins` on success
or a log (no alert) on failure, `finally` `setLoading(false)`. -/
def refreshBinsTrace (s : ScreenState) (env : Env) : List UIAction :=
  match s.location with
  | none => []
  | some loc =>
      UIAction.setLoading true ::
      UIAction.fetchCall loc.latitude loc.longitude 500 ::
      (match env.fetch with
       | Except.ok bs => [UIAction.setBins bs]
       | Except.error _ => [UIAction.logError "Error refreshing bins:"]) ++
      [UIAction.setLoading false]

/-- Run `refreshBins` from a state. -/
def refreshBins (s : ScreenState) (env : Env) : ScreenState :=
  applyTrace s (refreshBinsTrace s env)

/-- Trace of `pickImages`: launch the picker; on cancellation do nothing,
otherwise append the picked asset URIs to the current `images`. -/
def pickImagesTrace (s : ScreenState) (env : Env) : List UIAction :=
  UIAction.pickerCall ::
  match env.picker with
  | none => []
  | some uris => [UIAction.setImages (s.images ++ uris)]

/-- Run `pickImages` from a state. -/
def pickImages (s : ScreenState) (env : Env) : ScreenState :=
  applyTrace s (pickImagesTrace s env)

/-- Trace of `submitReport`: log the draft, close the modal, clear the
text and images, and show the success alert. -/
def submitReportTrace (s : ScreenState) : List UIAction :=
  [UIAction.logReport s.reportText s.images,
   UIAction.setReportVisible false,
   UIAction.setReportText "",
   UIAction.setImages [],
   UIAction.alert "Issue reported successfully."]

/-- Run `submitReport` from a state. -/
def submitReport (s : ScreenState) : ScreenState :=
  applyTrace s (submitReportTrace s)

/-- One rendered `<Marker>` of the `bins.map(...)` block: its React key,
its coordinate, the inner circle's color and the percentage text. -/
structure MarkerView where
  key : String
  latitude : ℚ
  longitude : ℚ
  color : String
  text : ℚ
deriving DecidableEq, Repr

/-- The markers rendered for a bin list: one per bin, keyed by `bin._id`,
at `latitude = coordinates[1]`, `longitude = coordinates[0]`, colored by
`getFillLevelColor(bin.fillLevel)` and labelled with the fill level. -/
def renderMarkers (bins : List Bin) : List MarkerView :=
  bins.map (fun b =>
    { key := b._id
      latitude := b.location.coordinates.2
      longitude := b.location.coordinates.1
      color := getFillLevelColor b.fillLevel
      text := b.fillLevel })

/-- The loading overlay / refresh-button `disabled` prop both read the
single `loading` state hook. -/
def loadingIndicator (s : ScreenState) : Bool :=
  s.loading

/-- The bin-details panel: rendered from `selectedBin` when non-null,
showing its fill level, latitude (`coordinates[1]`), longitude
(`coordinates[0]`) and id. -/
def binDetails (s : ScreenState) : Option (ℚ × ℚ × ℚ × String) :=
  s.selectedBin.map (fun b =>
    (b.fillLevel, b.location.coordinates.2, b.location.coordinates.1, b._id))

/-- C1: for every fill level f, `getFillLevelColor` returns red (#EF4444)
iff f ≥ 90, amber (#F59E0B) iff 70 ≤ f < 90, yellow (#FBBF24) iff
50 ≤ f < 70, and green (#10B981) iff f < 50. -/
theorem C1_fill_level_color (f : ℚ) :
    (getFillLevelColor f = "#EF4444" ↔ 90 ≤ f) ∧
    (getFillLevelColor f = "#F59E0B" ↔ 70 ≤ f ∧ f < 90) ∧
    (getFillLevelColor f = "#FBBF24" ↔ 50 ≤ f ∧ f < 70) ∧
    (getFillLevelColor f = "#10B981" ↔ f < 50) := by
  unfold getFillLevelColor
  split_ifs with h1 h2 h3 <;>
    refine ⟨⟨fun he => ?_, fun hf => ?_⟩, ⟨fun he => ?_, fun hf => ?_⟩,
            ⟨fun he => ?_, fun hf => ?_⟩, ⟨fun he => ?_, fun hf => ?_⟩⟩ <;>
    simp_all <;> first
      | rfl
      | linarith

/-- C2: if the permission request resolves with a status other than
"granted", the mount effect leaves the bin list empty, issues no
`getBinsNearby` call and no position request, obtains no position,
surfaces an alert, and clears the loading flag. -/
theorem C2_permission_denied (env : Env) (st : String)
    (hperm : env.permission = Except.ok st) (hst : st ≠ "granted") :
    (initialLoad initialState env).bins = [] ∧
    (initialLoad initialState env).loading = false ∧
    (∀ lat lon r : ℚ, UIAction.fetchCall lat lon r ∉ initialLoadTrace env) ∧
    UIAction.getPositionCall ∉ initialLoadTrace env ∧
    (∀ l : Option Coords, UIAction.setLocation l ∉ initialLoadTrace env) ∧
    UIAction.alert "Permission to access location was denied" ∈ initialLoadTrace env := by
  have ht : initialLoadTrace env =
      [UIAction.setLoading true, UIAction.requestPermissionCall,
       UIAction.alert "Permission to access location was denied",
       UIAction.setLoading false, UIAction.setLoading false] := by
    unfold initialLoadTrace
    rw [hperm]
    simp [hst]
  refine ⟨?_, ?_, ?_, ?_, ?_, ?_⟩ <;>
    simp [initialLoad, ht, applyTrace, applyAction, initialState]

/-- Witness for C2 at a concrete denied environment. -/
theorem C2_permission_denied_witness :
    (initialLoad initialState
        ⟨Except.ok "denied", Except.ok ⟨40, -73⟩, Except.ok [], none⟩).bins = [] ∧
    (initialLoad initialState
        ⟨Except.ok "denied", Except.ok ⟨40, -73⟩, Except.ok [], none⟩).loading = false :=
  ⟨(C2_permission_denied ⟨Except.ok "denied", Except.ok ⟨40, -73⟩, Except.ok [], none⟩
      "denied" rfl (by decide)).1,
   (C2_permission_denied ⟨Except.ok "denied", Except.ok ⟨40, -73⟩, Except.ok [], none⟩
      "denied" rfl (by decide)).2.1⟩

/-- C3: whenever the `getBinsNearby` call rejects, both the mount effect
and `refreshBins` leave the `bins` state exactly as it was before. -/
theorem C3_failed_fetch_preserves_bins (s : ScreenState) (env : Env) (e : Unit)
    (h : env.fetch = Except.error e) :
    (initialLoad s env).bins = s.bins ∧ (refreshBins s env).bins = s.bins := by
  obtain ⟨perm, pos, ftch, pick⟩ := env
  obtain ⟨sl, sb, ssel, sld, srv, srt, si⟩ := s
  simp only [Env.fetch] at h
  subst h
  constructor
  · rcases perm with u | st
    · rfl
    · by_cases hst : st = "granted"
      · subst hst
        rcases pos with u | p
        · rfl
        · rfl
      · simp [initialLoad, initialLoadTrace, hst, applyTrace, applyAction]
  · rcases sl with _ | loc
    · rfl
    · rfl

/-- Witness for C3 at a concrete state and failing fetch. -/
theorem C3_failed_fetch_preserves_bins_witness :
    (initialLoad
        { initialState with
            bins := [⟨"a", ⟨"Point", (-73, 40)⟩, 95⟩] }
        ⟨Except.ok "granted", Except.ok ⟨40, -73⟩, Except.error (), none⟩).bins =
      [⟨"a", ⟨"Point", (-73, 40)⟩, 95⟩] ∧
    (refreshBins
        { initialState with
            location := some ⟨40, -73⟩
            bins := [⟨"a", ⟨"Point", (-73, 40)⟩, 95⟩] }
        ⟨Except.ok "granted", Except.ok ⟨40, -73⟩, Except.error (), none⟩).bins =
      [⟨"a", ⟨"Point", (-73, 40)⟩, 95⟩] :=
  ⟨(C3_failed_fetch_preserves_bins
      { initialState with bins := [⟨"a", ⟨"Point", (-73, 40)⟩, 95⟩] }
      ⟨Except.ok "granted", Except.ok ⟨40, -73⟩, Except.error (), none⟩ () rfl).1,
   (C3_failed_fetch_preserves_bins
      { initialState with
          location := some ⟨40, -73⟩
          bins := [⟨"a", ⟨"Point", (-73, 40)⟩, 95⟩] }
      ⟨Except.ok "granted", Except.ok ⟨40, -73⟩, Except.error (), none⟩ () rfl).2⟩

/-- C4: `refreshBins` with no location set is a no-op: the state (hence
the bin list and the loading flag) is unchanged and the trace is empty
(so no `getBinsNearby` call is issued and `setLoading` is never called). -/
theorem C4_refresh_without_location (s : ScreenState) (env : Env)
    (h : s.location = none) :
    refreshBins s env = s ∧
    refreshBinsTrace s env = [] ∧
    (∀ lat lon r : ℚ, UIAction.fetchCall lat lon r ∉ refreshBinsTrace s env) ∧
    (∀ b : Bool, UIAction.setLoading b ∉ refreshBinsTrace s env) := by
  have ht : refreshBinsTrace s env = [] := by
    unfold refreshBinsTrace
    rw [h]
  refine ⟨?_, ht, ?_, ?_⟩ <;> simp [refreshBins, ht, applyTrace]

/-- Witness for C4 at the freshly mounted state. -/
theorem C4_refresh_without_location_witness :
    refreshBins initialState ⟨Except.ok "granted", Except.ok ⟨40, -73⟩, Except.ok [], none⟩ =
      initialState :=
  (C4_refresh_without_location initialState
      ⟨Except.ok "granted", Except.ok ⟨40, -73⟩, Except.ok [], none⟩ rfl).1

/-- C5: the loading flag is false once an operation completes: after the
mount effect it is always false (success, denial, or any thrown step),
and after `refreshBins` it is false whenever it was false when the
refresh was triggered (the refresh button is disabled while loading). -/
theorem C5_loading_clears (s : ScreenState) (env : Env) :
    (initialLoad s env).loading = false ∧
    (s.loading = false → (refreshBins s env).loading = false) := by
  obtain ⟨perm, pos, ftch, pick⟩ := env
  obtain ⟨sl, sb, ssel, sld, srv, srt, si⟩ := s
  constructor
  · rcases perm with u | st
    · rfl
    · by_cases hst : st = "granted"
      · subst hst
        rcases pos with u | p
        · rfl
        · rcases ftch with u | bs
          · rfl
          · rfl
      · simp [initialLoad, initialLoadTrace, hst, applyTrace, applyAction]
  · intro hld
    rcases sl with _ | loc
    · simpa [refreshBins, refreshBinsTrace, applyTrace] using hld
    · rcases ftch with u | bs
      · rfl
      · rfl

/-- Witness for C5 at a concrete successful environment. -/
theorem C5_loading_clears_witness :
    (initialLoad initialState
        ⟨Except.ok "granted", Except.ok ⟨40, -73⟩, Except.ok [], none⟩).loading = false ∧
    (refreshBins { initialState with location := some ⟨40, -73⟩, loading := false }
        ⟨Except.ok "granted", Except.ok ⟨40, -73⟩, Except.ok [], none⟩).loading = false :=
  ⟨(C5_loading_clears initialState
      ⟨Except.ok "granted", Except.ok ⟨40, -73⟩, Except.ok [], none⟩).1,
   (C5_loading_clears { initialState with location := some ⟨40, -73⟩, loading := false }
      ⟨Except.ok "granted", Except.ok ⟨40, -73⟩, Except.ok [], none⟩).2 rfl⟩

/-- C6: a non-cancelled pick appends the picked URIs after the current
images in order, and a cancelled pick leaves the whole state (hence the
image list) unchanged. -/
theorem C6_pick_images_appends (s : ScreenState) (env : Env) :
    (∀ uris : List String, env.picker = some uris →
        (pickImages s env).images = s.images ++ uris) ∧
    (env.picker = none → pickImages s env = s) := by
  constructor
  · intro uris h
    unfold pickImages pickImagesTrace
    rw [h]
    obtain ⟨sl, sb, ssel, sld, srv, srt, si⟩ := s
    rfl
  · intro h
    unfold pickImages pickImagesTrace
    rw [h]
    rfl

/-- Witness for C6: picking 2 images then 3 images from the empty draft
yields 5 images in first-then-second order, and a cancelled pick is a
no-op. -/
theorem C6_pick_images_appends_witness :
    (pickImages
        (pickImages initialState
          ⟨Except.ok "granted", Except.ok ⟨40, -73⟩, Except.ok [], some ["u1", "u2"]⟩)
        ⟨Except.ok "granted", Except.ok ⟨40, -73⟩, Except.ok [], some ["u3", "u4", "u5"]⟩).images =
      ["u1", "u2", "u3", "u4", "u5"] ∧
    pickImages initialState
        ⟨Except.ok "granted", Except.ok ⟨40, -73⟩, Except.ok [], none⟩ =
      initialState := by
  constructor
  · have h1 := (C6_pick_images_appends initialState
      ⟨Except.ok "granted", Except.ok ⟨40, -73⟩, Except.ok [], some ["u1", "u2"]⟩).1
      ["u1", "u2"] rfl
    have h2 := (C6_pick_images_appends
      (pickImages initialState
        ⟨Except.ok "granted", Except.ok ⟨40, -73⟩, Except.ok [], some ["u1", "u2"]⟩)
      ⟨Except.ok "granted", Except.ok ⟨40, -73⟩, Except.ok [], some ["u3", "u4", "u5"]⟩).1
      ["u3", "u4", "u5"] rfl
    rw [h2, h1]
    rfl
  · exact (C6_pick_images_appends initialState
      ⟨Except.ok "granted", Except.ok ⟨40, -73⟩, Except.ok [], none⟩).2 rfl

/-- C7: from every draft state, `submitReport` clears the report text,
clears the image list, closes the modal, and surfaces the success
alert. -/
theorem C7_submit_report_clears (s : ScreenState) :
    (submitReport s).reportText = "" ∧
    (submitReport s).images = [] ∧
    (submitReport s).reportVisible = false ∧
    UIAction.alert "Issue reported successfully." ∈ submitReportTrace s := by
  obtain ⟨sl, sb, ssel, sld, srv, srt, si⟩ := s
  refine ⟨rfl, rfl, rfl, ?_⟩
  simp [submitReportTrace]

/-- C8: rendering a fetched bin list produces exactly one marker per bin,
in order, keyed by the bin's `_id` (keys all distinct when the ids are),
each placed at latitude = `coordinates[1]` and longitude =
`coordinates[0]` of its bin. -/
theorem C8_markers_per_bin (bins : List Bin)
    (h : (bins.map Bin._id).Nodup) :
    (renderMarkers bins).length = bins.length ∧
    (renderMarkers bins).map MarkerView.key = bins.map Bin._id ∧
    ((renderMarkers bins).map MarkerView.key).Nodup ∧
    (∀ i : ℕ, i < bins.length →
      ∃ b m, bins.get? i = some b ∧ (renderMarkers bins).get? i = some m ∧
        m.key = b._id ∧
        m.latitude = b.location.coordinates.2 ∧
        m.longitude = b.location.coordinates.1) := by
  have hkeys : (renderMarkers bins).map MarkerView.key = bins.map Bin._id := by
    simp [renderMarkers]
  refine ⟨by simp [renderMarkers], hkeys, hkeys ▸ h, ?_⟩
  intro i hi
  refine ⟨bins.get ⟨i, hi⟩,
          { key := (bins.get ⟨i, hi⟩)._id
            latitude := (bins.get ⟨i, hi⟩).location.coordinates.2
            longitude := (bins.get ⟨i, hi⟩).location.coordinates.1
            color := getFillLevelColor (bins.get ⟨i, hi⟩).fillLevel
            text := (bins.get ⟨i, hi⟩).fillLevel },
          List.get?_eq_get hi, ?_, rfl, rfl, rfl⟩
  rw [renderMarkers, List.get?_map, List.get?_eq_get hi]
  rfl

/-- Witness for C8 on the spec's two-bin scenario. -/
theorem C8_markers_per_bin_witness :
    (renderMarkers
        [⟨"a", ⟨"Point", (-73001/1000, 40001/1000)⟩, 95⟩,
         ⟨"b", ⟨"Point", (-73002/1000, 40002/1000)⟩, 40⟩]).length = 2 ∧
    (renderMarkers
        [⟨"a", ⟨"Point", (-73001/1000, 40001/1000)⟩, 95⟩,
         ⟨"b", ⟨"Point", (-73002/1000, 40002/1000)⟩, 40⟩]).map MarkerView.key =
      ["a", "b"] ∧
    ((renderMarkers
        [⟨"a", ⟨"Point", (-73001/1000, 40001/1000)⟩, 95⟩,
         ⟨"b", ⟨"Point", (-73002/1000, 40002/1000)⟩, 40⟩]).map MarkerView.key).Nodup := by
  have h := C8_markers_per_bin
    [⟨"a", ⟨"Point", (-73001/1000, 40001/1000)⟩, 95⟩,
     ⟨"b", ⟨"Point", (-73002/1000, 40002/1000)⟩, 40⟩] (by decide)
  exact ⟨h.1, h.2.1, h.2.2.1⟩

/-- C9 counterexample: the claim says `refreshBins` toggles a loading
flag distinct from the one used by the initial load, so that refresh's
loading transitions cannot affect the initial load's indicator.  In the
code both operations call the same `setLoading` setter of the single
`loading` hook, which is also what the loading overlay
(`loadingIndicator`) renders.  Concretely, from a ready state with
`loading = false`, the refresh trace contains a `setLoading true` write,
the initial-load trace contains the same `setLoading true` write, and
applying the first step of the refresh trace flips `loadingIndicator`
from `false` to `true` — a refresh loading transition visibly drives the
initial load's indicator. -/
theorem C9_distinct_flag_counterexample :
    UIAction.setLoading true ∈
      refreshBinsTrace
        { initialState with location := some ⟨40, -73⟩, loading := false }
        ⟨Except.ok "granted", Except.ok ⟨40, -73⟩, Except.ok [], none⟩ ∧
    UIAction.setLoading true ∈
      initialLoadTrace
        ⟨Except.ok "granted", Except.ok ⟨40, -73⟩, Except.ok [], none⟩ ∧
    loadingIndicator
        { initialState with location := some ⟨40, -73⟩, loading := false } = false ∧
    loadingIndicator
      (applyTrace
        { initialState with location := some ⟨40, -73⟩, loading := false }
        ((refreshBinsTrace
            { initialState with location := some ⟨40, -73⟩, loading := false }
            ⟨Except.ok "granted", Except.ok ⟨40, -73⟩, Except.ok [], none⟩).take 1)) =
      true := by
  refine ⟨?_, ?_, rfl, rfl⟩ <;> simp [refreshBinsTrace, initialLoadTrace, initialState]

/-- C9 amended: `refreshBins` toggles the same single `loading` flag
used by the initial load sequence: whenever a location is set, both the
refresh trace and the initial-load trace write `setLoading true` to the
one `loading` hook, and applying the refresh trace's first step turns on
the shared `loadingIndicator` rendered by the loading overlay (so the
two operations' loading transitions are not independent). -/
theorem C9_shared_loading_flag (s : ScreenState) (env : Env) (loc : Coords)
    (hloc : s.location = some loc) (hld : s.loading = false) :
    UIAction.setLoading true ∈ refreshBinsTrace s env ∧
    UIAction.setLoading true ∈ initialLoadTrace env ∧
    loadingIndicator s = false ∧
    loadingIndicator (applyTrace s ((refreshBinsTrace s env).take 1)) = true := by
  have ht : ∃ rest : List UIAction,
      refreshBinsTrace s env = UIAction.setLoading true :: rest := by
    unfold refreshBinsTrace
    rw [hloc]
    exact ⟨_, rfl⟩
  obtain ⟨rest, ht⟩ := ht
  refine ⟨?_, ?_, hld, ?_⟩
  · rw [ht]; exact List.mem_cons_self _ _
  · simp [initialLoadTrace]
  · rw [ht]
    rfl

/-- Witness for the amended C9 at a concrete ready state. -/
theorem C9_shared_loading_flag_witness :
    UIAction.setLoading true ∈
      refreshBinsTrace
        { initialState with location := some ⟨40, -73⟩, loading := false }
        ⟨Except.ok "granted", Except.ok ⟨40, -73⟩, Except.ok [], none⟩ ∧
    UIAction.setLoading true ∈
      initialLoadTrace
        ⟨Except.ok "granted", Except.ok ⟨40, -73⟩, Except.ok [], none⟩ :=
  ⟨(C9_shared_loading_flag
      { initialState with location := some ⟨40, -73⟩, loading := false }
      ⟨Except.ok "granted", Except.ok ⟨40, -73⟩, Except.ok [], none⟩
      ⟨40, -73⟩ rfl rfl).1,
   (C9_shared_loading_flag
      { initialState with location := some ⟨40, -73⟩, loading := false }
      ⟨Except.ok "granted", Except.ok ⟨40, -73⟩, Except.ok [], none⟩
      ⟨40, -73⟩ rfl rfl).2.1⟩

/-- C10: a successful refresh replaces the bin list wholesale but never
writes `selectedBin`: if the selected bin's id is absent from the fetch
result, the detail panel still renders that bin even though it is no
longer in the bin list. -/
theorem C10_refresh_preserves_selection (s : ScreenState) (env : Env)
    (loc : Coords) (b : Bin) (bs : List Bin)
    (hloc : s.location = some loc) (hsel : s.selectedBin = some b)
    (hfetch : env.fetch = Except.ok bs) (habs : b._id ∉ bs.map Bin._id) :
    (refreshBins s env).bins = bs ∧
    (refreshBins s env).selectedBin = some b ∧
    binDetails (refreshBins s env) =
      some (b.fillLevel, b.location.coordinates.2, b.location.coordinates.1, b._id) ∧
    b._id ∉ (refreshBins s env).bins.map Bin._id := by
  have ht : refreshBinsTrace s env =
      [UIAction.setLoading true,
       UIAction.fetchCall loc.latitude loc.longitude 500,
       UIAction.setBins bs, UIAction.setLoading false] := by
    unfold refreshBinsTrace
    rw [hloc, hfetch]
    rfl
  have hs : refreshBins s env = { s with bins := bs, loading := false } := by
    unfold refreshBins
    rw [ht]
    obtain ⟨sl, sb, ssel, sld, srv, srt, si⟩ := s
    rfl
  rw [hs]
  exact ⟨rfl, hsel, by simp [binDetails, hsel], habs⟩

/-- Witness for C10: bin "a" stays selected and displayed after a
refresh that returns only bin "b". -/
theorem C10_refresh_preserves_selection_witness :
    (refreshBins
        { initialState with
            location := some ⟨40, -73⟩
            bins := [⟨"a", ⟨"Point", (-73, 40)⟩, 95⟩]
            selectedBin := some ⟨"a", ⟨"Point", (-73, 40)⟩, 95⟩
            loading := false }
        ⟨Except.ok "granted", Except.ok ⟨40, -73⟩,
         Except.ok [⟨"b", ⟨"Point", (-74, 41)⟩, 40⟩], none⟩).bins =
      [⟨"b", ⟨"Point", (-74, 41)⟩, 40⟩] ∧
    (refreshBins
        { initialState with
            location := some ⟨40, -73⟩
            bins := [⟨"a", ⟨"Point", (-73, 40)⟩, 95⟩]
            selectedBin := some ⟨"a", ⟨"Point", (-73, 40)⟩, 95⟩
            loading := false }
        ⟨Except.ok "granted", Except.ok ⟨40, -73⟩,
         Except.ok [⟨"b", ⟨"Point", (-74, 41)⟩, 40⟩], none⟩).selectedBin =
      some ⟨"a", ⟨"Point", (-73, 40)⟩, 95⟩ := by
  have h := C10_refresh_preserves_selection
    { initialState with
        location := some ⟨40, -73⟩
        bins := [⟨"a", ⟨"Point", (-73, 40)⟩, 95⟩]
        selectedBin := some ⟨"a", ⟨"Point", (-73, 40)⟩, 95⟩
        loading := false }
    ⟨Except.ok "granted", Except.ok ⟨40, -73⟩,
     Except.ok [⟨"b", ⟨"Point", (-74, 41)⟩, 40⟩], none⟩
    ⟨40, -73⟩ ⟨"a", ⟨"Point", (-73, 40)⟩, 95⟩ [⟨"b", ⟨"Point", (-74, 41)⟩, 40⟩]
    rfl rfl rfl (by decide)
  exact ⟨h.1, h.2.1⟩
